import Mathlib

/-!
# Verification of the METAR Reader decoder

A shallow embedding, in Lean 4, of the METAR decoding engine of the
METAR-Reader repository (`app.py`, class `MetarDecoder`), together with
theorems settling the specification claims about it.

Modelling conventions:
* Python strings are Lean `String`s; per-character scanning works on `String.data`
  (the underlying `List Char`).
* Python `int` is `ℤ` (or `ℕ` where the source value is a parsed digit run).
* Python `float` values are modelled as `ℚ`.  The two float operations the
  decoder performs — `round(x)` after a division, and `/` on small integers —
  are exact at every value the claims touch (and `round`'s bankers' tie rule is
  never exercised: the pre-rounding values are provably never half-integers),
  so the rational model coincides with CPython float behaviour there.
* Python code that can raise an exception is modelled with `Option`: `none`
  means the corresponding Python call raises.
-/

namespace MetarReader

/-- Digit value of a character (`'0'` ↦ 0, …, `'9'` ↦ 9). -/
def digitVal (c : Char) : ℕ := c.toNat - '0'.toNat

/-- Numeric value of a digit run, most significant first
(models Python `int` applied to a string of digits). -/
def digitsVal (cs : List Char) : ℕ := cs.foldl (fun a c => 10 * a + digitVal c) 0

/-- Python `int(s)` on a token fragment, as the decoder can reach it: the
fragment contains no whitespace or sign, so `int` succeeds exactly when the
fragment is a run of decimal digits possibly containing single underscores
strictly between digits (Python's numeric-literal underscore rule), and its
value ignores the underscores.  Any other character makes `int` raise
`ValueError`, modelled as `none`. -/
def pyParseNat (cs : List Char) : Option ℕ :=
  let rec go : List Char → Bool
    | [] => true
    | [c] => c.isDigit
    | c :: '_' :: rest => c.isDigit && (match rest with
        | r :: _ => r.isDigit
        | [] => false) && go rest
    | c :: rest => c.isDigit && go rest
  match cs with
  | [] => none
  | c :: _ =>
    if c.isDigit && go cs then some (digitsVal (cs.filter Char.isDigit)) else none

/-- Lookup in one of the decoder's constant tables (a Python `dict` literal,
modelled as an association list in the source's insertion order). -/
def tlookup (tbl : List (String × String)) (k : String) : Option String :=
  (tbl.find? (fun p => p.1 == k)).map (fun p => p.2)

/-- `self.wind_directions`: abbreviated compass point → full name. -/
def wind_directions : List (String × String) :=
  [("N", "North"), ("NNE", "North-northeast"), ("NE", "Northeast"),
   ("ENE", "East-northeast"), ("E", "East"), ("ESE", "East-southeast"),
   ("SE", "Southeast"), ("SSE", "South-southeast"), ("S", "South"),
   ("SSW", "South-southwest"), ("SW", "Southwest"), ("WSW", "West-southwest"),
   ("W", "West"), ("WNW", "West-northwest"), ("NW", "Northwest"),
   ("NNW", "North-northwest")]

/-- The ordered 16-point compass rose of `degrees_to_direction`. -/
def directions : List String :=
  ["N", "NNE", "NE", "ENE", "E", "ESE", "SE", "SSE",
   "S", "SSW", "SW", "WSW", "W", "WNW", "NW", "NNW"]

/-- `degrees_to_direction`: `None` ↦ "variable", otherwise
`index = round(degrees / 22.5) % 16` into the compass rose, then the full
name from `wind_directions`.  `round` is Mathlib's `round` on `ℚ`; this
matches Python `round` on the float `degrees / 22.5` because for an integer
number of degrees the quotient is never a half-integer (no tie) and the float
evaluation is exact to far below the distance to the nearest tie. -/
def degrees_to_direction (degrees : Option ℕ) : String :=
  match degrees with
  | none => "variable"
  | some d =>
    let index : ℤ := round ((d : ℚ) / 22.5) % 16
    let abbr := directions.getD index.toNat "N"
    (tlookup wind_directions abbr).getD abbr

/-- The number stored in the visibility field: the integer branch stores a
Python `int`, the fractional branch a Python `float` quotient (kept here as
the numerator/denominator pair so that its decimal rendering is available). -/
inductive VisValue where
  | int (n : ℕ)
  | frac (n d : ℕ)
deriving Repr, DecidableEq

/-- The rational magnitude of a visibility value. -/
def VisValue.toQ : VisValue → ℚ
  | .int n => n
  | .frac n d => (n : ℚ) / d

/-- Decimal digits of the fractional part of `n / d`, most significant first
(long division; `fuel` bounds the number of digits). -/
def fracDigits (fuel rem d : ℕ) : List Char :=
  match fuel with
  | 0 => []
  | fuel' + 1 =>
    if rem = 0 then []
    else
      let r := rem * 10
      Char.ofNat (r / d + '0'.toNat) :: fracDigits fuel' (r % d) d

/-- Rendering of a visibility value by Python `str` inside the f-string:
an `int` renders as its digits; a `float` renders with a decimal point and
at least one fractional digit (`1.0`, `0.5`, `0.75`).  For quotients with a
short terminating decimal expansion — the only ones the decoder's claims
evaluate — this coincides with CPython's float `repr`. -/
def VisValue.render : VisValue → String
  | .int n => toString n
  | .frac n d =>
    if d = 0 then "inf"
    else
      let whole := n / d
      let rem := n % d
      let ds := fracDigits 17 rem d
      toString whole ++ "." ++ (if ds.isEmpty then "0" else String.mk ds)

/-- `decode_visibility`: format a visibility magnitude. -/
def decode_visibility (visibility : VisValue) : String :=
  if 10 ≤ visibility.toQ then "10+ miles"
  else if 1 ≤ visibility.toQ then visibility.render ++ " miles"
  else visibility.render ++ " mile"

/-- The `sky_conditions` table of `decode_sky_condition`. -/
def sky_conditions_table : List (String × String) :=
  [("CLR", "Clear skies"), ("SKC", "Sky clear"), ("FEW", "Few clouds"),
   ("SCT", "Scattered clouds"), ("BKN", "Broken clouds"), ("OVC", "Overcast")]

/-- `decode_sky_condition`: look up the first three characters, falling back
to the raw condition string. -/
def decode_sky_condition (condition : String) : String :=
  (tlookup sky_conditions_table (String.mk (condition.data.take 3))).getD condition

/-- The `descriptor` table of `decode_weather_phenomenon`. -/
def descriptor : List (String × String) :=
  [("MI", "Shallow "), ("PR", "Partial "), ("BC", "Patches of "), ("DR", "Drifting "),
   ("BL", "Blowing "), ("SH", "Showers of "), ("TS", "Thunderstorms with "), ("FZ", "Freezing ")]

/-- The `precipitation` table of `decode_weather_phenomenon`. -/
def precipitation : List (String × String) :=
  [("DZ", "drizzle"), ("RA", "rain"), ("SN", "snow"), ("SG", "snow grains"),
   ("IC", "ice crystals"), ("PL", "ice pellets"), ("GR", "hail"), ("GS", "small hail")]

/-- The `obscuration` table of `decode_weather_phenomenon`. -/
def obscuration : List (String × String) :=
  [("BR", "mist"), ("FG", "fog"), ("FU", "smoke"), ("VA", "volcanic ash"),
   ("DU", "dust"), ("SA", "sand"), ("HZ", "haze"), ("PY", "spray")]

/-- The scanning loop of `decode_weather_phenomenon`: repeatedly take the
2-character slice at the cursor, try `descriptor`, then `precipitation`, then
`obscuration`; on a hit append the decoded text and advance by 2, otherwise
advance by 1.  (With one character left the slice is 1 character long and
matches no table, so the loop just terminates.) -/
def phenomScan : List Char → String
  | c1 :: c2 :: rest =>
    let code := String.mk [c1, c2]
    match tlookup descriptor code with
    | some t => t ++ phenomScan rest
    | none =>
      match tlookup precipitation code with
      | some t => t ++ phenomScan rest
      | none =>
        match tlookup obscuration code with
        | some t => t ++ phenomScan rest
        | none => phenomScan (c2 :: rest)
  | _ => ""

/-- `decode_weather_phenomenon`: optional leading intensity sign (`-` "Light ",
`+` "Heavy "), then the 2-character scan; if the composed result is the empty
string, echo the raw phenomenon token. -/
def decode_weather_phenomenon (phenomenon : String) : String :=
  let result :=
    match phenomenon.data with
    | '-' :: rest => "Light " ++ phenomScan rest
    | '+' :: rest => "Heavy " ++ phenomScan rest
    | cs => phenomScan cs
  if result = "" then phenomenon else result

/-- `celsius_to_fahrenheit`: `round((celsius * 9/5) + 32)`.  Mathlib `round`
on `ℚ` matches Python `round` on the float here because `9c/5 + 32` is never a
half-integer for integer `c` (proved below), so no tie-breaking rule is ever
exercised. -/
def celsius_to_fahrenheit (celsius : ℤ) : ℤ :=
  round ((celsius : ℚ) * 9 / 5 + 32)

/-- ASCII uppercase letter, the regex class `[A-Z]`. -/
def isUpperAZ (c : Char) : Bool := c.isUpper

/-- Python `str.lower()`: character-wise lowercasing (the decoder only ever
lowercases ASCII compass names, where `Char.toLower` agrees with Python). -/
def pyLower (s : String) : String := String.mk (s.data.map Char.toLower)

/-- `re.match(r'(\d{6})Z', part)`: six digits then `Z` at the start of the
token (anything may follow — `re.match` anchors only at the start). -/
def timeMatch (t : String) : Bool :=
  match t.data with
  | a :: b :: c :: d :: e :: f :: 'Z' :: _ =>
    a.isDigit && b.isDigit && c.isDigit && d.isDigit && e.isDigit && f.isDigit
  | _ => false

/-- The time rendering of `decode_metar`: day = first two digits, hour = next
two, minute = last two, glued as `"<day>th at <hour>:<minute> UTC"`. -/
def renderTime (t : String) : String :=
  match t.data with
  | a :: b :: c :: d :: e :: f :: _ =>
    String.mk [a, b] ++ "th at " ++ String.mk [c, d] ++ ":" ++ String.mk [e, f] ++ " UTC"
  | _ => ""

/-- Is `KT` at the cursor (trailing characters allowed)? -/
def ktAt : List Char → Bool
  | 'K' :: 'T' :: _ => true
  | _ => false

/-- The `(G\d{2,3})?KT` tail of the wind regex at the cursor, with the
regex's greedy backtracking order (gust of 3 digits, then 2 digits, then no
gust group); returns the parsed gust group on a match. -/
def windGust (cs : List Char) : Option (Option ℕ) :=
  (match cs with
   | 'G' :: a :: b :: c :: rest =>
     if a.isDigit && b.isDigit && c.isDigit && ktAt rest then
       some (some (digitsVal [a, b, c]))
     else none
   | _ => none)
  <|>
  (match cs with
   | 'G' :: a :: b :: rest =>
     if a.isDigit && b.isDigit && ktAt rest then some (some (digitsVal [a, b])) else none
   | _ => none)
  <|> (if ktAt cs then some none else none)

/-- The `(\d{2,3})(G\d{2,3})?KT` tail of the wind regex: greedy 3-digit speed
first, falling back to 2 digits; returns (speed, gust group). -/
def windSpeedTail : List Char → Option (ℕ × Option ℕ)
  | a :: b :: rest =>
    if a.isDigit && b.isDigit then
      (match rest with
       | c :: rest2 =>
         if c.isDigit then (windGust rest2).map (fun g => (digitsVal [a, b, c], g))
         else none
       | [] => none)
      <|> (windGust rest).map (fun g => (digitsVal [a, b], g))
    else none
  | _ => none

/-- `re.match(r'(\d{3}|VRB)(\d{2,3})(G\d{2,3})?KT', part)`: the parse result
is (direction group: `none` for `VRB`, speed, gust group). -/
def parseWind (cs : List Char) : Option (Option ℕ × ℕ × Option ℕ) :=
  match cs with
  | 'V' :: 'R' :: 'B' :: rest => (windSpeedTail rest).map (fun p => (none, p))
  | a :: b :: c :: rest =>
    if a.isDigit && b.isDigit && c.isDigit then
      (windSpeedTail rest).map (fun p => (some (digitsVal [a, b, c]), p))
    else none
  | _ => none

/-- The wind observation record built by `decode_metar`. -/
structure WindObs where
  description : String
  speed : ℕ
  direction : Option String
  gust : Option ℕ
deriving Repr, DecidableEq

/-- The wind branch of `decode_metar` on one token: `none` when the wind
regex does not match; zero speed yields the fixed Calm observation, otherwise
the compass text drives the description. -/
def windEffect (t : String) : Option WindObs :=
  (parseWind t.data).map (fun pg =>
    let direction := pg.1
    let speed := pg.2.1
    let gust := pg.2.2
    if speed = 0 then ⟨"Calm", 0, none, none⟩
    else
      let dir_text := degrees_to_direction direction
      ⟨"From the " ++ pyLower dir_text, speed, some dir_text, gust⟩)

/-- Maximal leading digit run of a character list, plus the remainder. -/
def leadDigits : List Char → List Char × List Char
  | [] => ([], [])
  | c :: rest =>
    if c.isDigit then
      let p := leadDigits rest
      (c :: p.1, p.2)
    else ([], c :: rest)

/-- `re.match(r'\d+SM', part)`: a nonempty leading digit run immediately
followed by `SM` (since `\d` cannot match `S`, the greedy run is exact). -/
def intVisMatch (cs : List Char) : Bool :=
  let p := leadDigits cs
  !p.1.isEmpty &&
    (match p.2 with
     | 'S' :: 'M' :: _ => true
     | _ => false)

/-- `re.match(r'\d+/\d+SM', part)`: digit run, `/`, digit run, `SM`. -/
def fracVisMatch (cs : List Char) : Bool :=
  let p := leadDigits cs
  !p.1.isEmpty &&
    (match p.2 with
     | '/' :: rest2 =>
       let q := leadDigits rest2
       !q.1.isEmpty &&
         (match q.2 with
          | 'S' :: 'M' :: _ => true
          | _ => false)
     | _ => false)

/-- Python `part.replace('SM', '')`: delete every (left-to-right,
non-overlapping) occurrence of `SM`. -/
def removeSM : List Char → List Char
  | 'S' :: 'M' :: rest => removeSM rest
  | c :: rest => c :: removeSM rest
  | [] => []

/-- Python `s.split('/')`: split at every slash, keeping empty parts. -/
def splitSlash : List Char → List (List Char)
  | [] => [[]]
  | '/' :: rest => [] :: splitSlash rest
  | c :: rest =>
    match splitSlash rest with
    | p :: ps => (c :: p) :: ps
    | [] => [[c]]

/-- The visibility observation record built by `decode_metar`. -/
structure VisObs where
  value : VisValue
  description : String
deriving Repr, DecidableEq

/-- The visibility branch of `decode_metar` on one token.  Outer `none`
models a Python exception: in the fractional branch, `int()` raising on a
malformed part, unpacking raising when the `SM`-stripped token does not split
into exactly two parts, or `num / denom` raising `ZeroDivisionError`. -/
def visEffect (t : String) : Option (Option VisObs) :=
  if intVisMatch t.data then
    let n := digitsVal (leadDigits t.data).1
    some (some ⟨.int n, decode_visibility (.int n)⟩)
  else if fracVisMatch t.data then
    match splitSlash (removeSM t.data) with
    | [p, q] =>
      match pyParseNat p, pyParseNat q with
      | some num, some denom =>
        if denom = 0 then none
        else some (some ⟨.frac num denom, decode_visibility (.frac num denom)⟩)
      | _, _ => none
    | _ => none
  else some none

/-- `re.match(r'M?\d{2}/M?\d{2}', part)`: optional `M`, two digits, slash,
optional `M`, two digits, at the start of the token. -/
def tempMatch (cs : List Char) : Bool :=
  let cs1 := match cs with
    | 'M' :: rest => rest
    | _ => cs
  match cs1 with
  | a :: b :: '/' :: rest =>
    a.isDigit && b.isDigit &&
      (let cs2 := match rest with
        | 'M' :: rest2 => rest2
        | _ => rest
       match cs2 with
       | c :: d :: _ => c.isDigit && d.isDigit
       | _ => false)
  | _ => false

/-- One half of the temperature token: `-int(s[1:])` when it starts with `M`,
else `int(s)` (`none` models `int` raising `ValueError`). -/
def parseSigned (cs : List Char) : Option ℤ :=
  match cs with
  | 'M' :: rest => (pyParseNat rest).map (fun n => -(n : ℤ))
  | _ => (pyParseNat cs).map (fun n => (n : ℤ))

/-- The temperature/dewpoint branch of `decode_metar` on one token: the token
is split on every `/`; element 0 is the temperature text, element 1 the
dewpoint text.  Outer `none` models `int()` raising on a malformed dewpoint
remainder (the temperature half is fully covered by the regex and never
raises). -/
def tempEffect (t : String) : Option (Option (ℤ × ℤ)) :=
  if tempMatch t.data then
    match splitSlash t.data with
    | p0 :: p1 :: _ =>
      match parseSigned p0, parseSigned p1 with
      | some tc, some dc => some (some (tc, dc))
      | _, _ => none
    | _ => none
  else some none

/-- The six sky-condition codes of the sky regex alternation. -/
def skyCodes : List String := ["CLR", "SKC", "FEW", "SCT", "BKN", "OVC"]

/-- A sky layer record built by `decode_metar`. -/
structure SkyLayer where
  condition : String
  description : String
  height : Option ℕ
deriving Repr, DecidableEq

/-- The sky branch of `decode_metar` on one token:
`re.match(r'(CLR|SKC|FEW|SCT|BKN|OVC)(\d{3})?', part)`; group 1 is the first
three characters when they spell one of the codes, group 2 three digits
immediately after (absent otherwise); height = digits × 100. -/
def skyEffect (t : String) : Option SkyLayer :=
  let first3 := String.mk (t.data.take 3)
  if skyCodes.contains first3 then
    let heightDigits : Option ℕ :=
      match t.data.drop 3 with
      | a :: b :: c :: _ =>
        if a.isDigit && b.isDigit && c.isDigit then some (digitsVal [a, b, c]) else none
      | _ => none
    some ⟨first3, decode_sky_condition first3, heightDigits.map (· * 100)⟩
  else none

/-- `re.match(r'[-+]?[A-Z]{2,}', part)`: optional sign, then at least two
uppercase letters at the start of the token. -/
def phenomMatchB (cs : List Char) : Bool :=
  let body := if cs.head? = some '-' ∨ cs.head? = some '+' then cs.tail else cs
  match body with
  | a :: b :: _ => isUpperAZ a && isUpperAZ b
  | _ => false

/-- `re.match(r'\d{3}\d{2,3}', part)`: five digits at the start. -/
def windShapeB (cs : List Char) : Bool :=
  match cs with
  | a :: b :: c :: d :: e :: _ =>
    a.isDigit && b.isDigit && c.isDigit && d.isDigit && e.isDigit
  | _ => false

/-- `re.match(r'[A-Z]\d{4}', part)`: a letter then four digits at the start. -/
def letterDigitsB (cs : List Char) : Bool :=
  match cs with
  | a :: b :: c :: d :: e :: _ =>
    isUpperAZ a && b.isDigit && c.isDigit && d.isDigit && e.isDigit
  | _ => false

/-- A weather-phenomenon record built by `decode_metar`. -/
structure PhenomObs where
  code : String
  description : String
deriving Repr, DecidableEq

/-- The weather-phenomena branch of `decode_metar` on one token: pattern
match, the three literal exclusions, and the two shape exclusions. -/
def phenomEffect (t : String) : Option PhenomObs :=
  if phenomMatchB t.data && !(t == "AUTO" || t == "COR" || t == "RMK")
      && !windShapeB t.data && !letterDigitsB t.data then
    some ⟨t, decode_weather_phenomenon t⟩
  else none

/-- The pressure observation record built by `decode_metar`. -/
structure PressureObs where
  inches_hg : ℚ
  description : String
deriving Repr, DecidableEq

/-- Two-digit zero-padded rendering. -/
def pad2 (n : ℕ) : String := if n < 10 then "0" ++ toString n else toString n

/-- The pressure branch of `decode_metar` on one token:
`re.match(r'A(\d{4})', part)`, value = digits / 100, description formatted
with exactly two decimal digits (the model prints the four digits around a
point, which is what `f"{n/100:.2f}"` produces for every 4-digit `n`). -/
def pressureEffect (t : String) : Option PressureObs :=
  match t.data with
  | 'A' :: a :: b :: c :: d :: _ =>
    if a.isDigit && b.isDigit && c.isDigit && d.isDigit then
      let n := digitsVal [a, b, c, d]
      some ⟨(n : ℚ) / 100, toString (n / 100) ++ "." ++ pad2 (n % 100) ++ " inches Hg"⟩
    else none
  | _ => none

/-- The temperature / dewpoint observation record built by `decode_metar`. -/
structure TempObs where
  celsius : ℤ
  fahrenheit : ℤ
deriving Repr, DecidableEq

/-- The result dictionary of `decode_metar` (the non-error shape). -/
structure MetarResult where
  wind : Option WindObs
  visibility : Option VisObs
  temperature : Option TempObs
  dewpoint : Option TempObs
  sky_conditions : List SkyLayer
  weather_phenomena : List PhenomObs
  pressure : Option PressureObs
  time : Option String
deriving Repr, DecidableEq

/-- The freshly initialized result dictionary. -/
def initResult : MetarResult := ⟨none, none, none, none, [], [], none, none⟩

/-- Wind assignment on one token (overwrites on a match, else leaves). -/
def applyWind (r : MetarResult) (t : String) : MetarResult :=
  match windEffect t with
  | some w => { r with wind := some w }
  | none => r

/-- Visibility assignment on one token (`none` = exception). -/
def applyVis (r : MetarResult) (t : String) : Option MetarResult :=
  (visEffect t).map (fun v =>
    match v with
    | some obs => { r with visibility := some obs }
    | none => r)

/-- Temperature/dewpoint assignment on one token (`none` = exception); both
fields are set from the one token. -/
def applyTempDew (r : MetarResult) (t : String) : Option MetarResult :=
  (tempEffect t).map (fun v =>
    match v with
    | some td =>
      { r with temperature := some ⟨td.1, celsius_to_fahrenheit td.1⟩,
               dewpoint := some ⟨td.2, celsius_to_fahrenheit td.2⟩ }
    | none => r)

/-- Sky-layer accumulation on one token (appends on a match). -/
def applySky (r : MetarResult) (t : String) : MetarResult :=
  match skyEffect t with
  | some l => { r with sky_conditions := r.sky_conditions ++ [l] }
  | none => r

/-- Weather-phenomena accumulation on one token (appends on a match). -/
def applyPhenom (r : MetarResult) (t : String) : MetarResult :=
  match phenomEffect t with
  | some p => { r with weather_phenomena := r.weather_phenomena ++ [p] }
  | none => r

/-- Pressure assignment on one token. -/
def applyPressure (r : MetarResult) (t : String) : MetarResult :=
  match pressureEffect t with
  | some p => { r with pressure := some p }
  | none => r

/-- One iteration of the token loop of `decode_metar`: a time match sets the
time and `continue`s (no other classifier runs); otherwise every classifier
runs against the token in source order. -/
def applyToken (r : MetarResult) (t : String) : Option MetarResult :=
  if timeMatch t then some { r with time := some (renderTime t) }
  else do
    let r1 := applyWind r t
    let r2 ← applyVis r1 t
    let r3 ← applyTempDew r2 t
    pure (applyPressure (applyPhenom (applySky r3 t) t) t)

/-- Accumulator pass of `tokenize`: `acc` holds the characters of the token
in progress, reversed. -/
def tokenizeAux : List Char → List Char → List String
  | [], acc => if acc.isEmpty then [] else [String.mk acc.reverse]
  | c :: rest, acc =>
    if c.isWhitespace then
      if acc.isEmpty then tokenizeAux rest []
      else String.mk acc.reverse :: tokenizeAux rest []
    else tokenizeAux rest (c :: acc)

/-- Python `metar_text.split()`: split on runs of whitespace, dropping empty
pieces. -/
def tokenize (cs : List Char) : List String := tokenizeAux cs []

/-- What `decode_metar` hands back when it returns: either the distinguished
error dictionary or a populated result dictionary. -/
inductive DecodeResult where
  | err (msg : String)
  | ok (r : MetarResult)
deriving Repr, DecidableEq

/-- `decode_metar`: empty input yields the distinguished error dictionary;
otherwise the token loop runs over the whitespace-split tokens.  The outer
`Option` models Python exceptions escaping the loop (`none` = the call
raises). -/
def decode_metar (metar_text : String) : Option DecodeResult :=
  if metar_text = "" then some (.err "No METAR data available")
  else ((tokenize metar_text.data).foldlM applyToken initResult).map .ok

/-- Modelled from the spec's wording (§4.7), for the refinement half of the
phenomenon claim: a single ordered rule list — descriptor rules first, then
precipitation, then obscuration — replaces the three separate tables. -/
def spec_phenomenon_rules : List (String × String) :=
  descriptor ++ precipitation ++ obscuration

/-- Modelled from the spec's wording (§4.7): greedy left-to-right scan of
2-character codes against the single ordered rule list, skipping unmatched
slices. -/
def specPhenomScan : List Char → String
  | c1 :: c2 :: rest =>
    match tlookup spec_phenomenon_rules (String.mk [c1, c2]) with
    | some t => t ++ specPhenomScan rest
    | none => specPhenomScan (c2 :: rest)
  | _ => ""

/-- Modelled from the spec's wording (§4.7): optional intensity character
mapped through the intensity table, then the rule-list scan, then the
raw-token fallback when the composition is empty. -/
def spec_decode_weather_phenomenon (p : String) : String :=
  let composed :=
    match p.data with
    | '-' :: rest => "Light " ++ specPhenomScan rest
    | '+' :: rest => "Heavy " ++ specPhenomScan rest
    | cs => specPhenomScan cs
  if composed = "" then p else composed

end MetarReader

namespace MetarReader

/-! ## Shared helper lemmas -/

/-- Table lookup distributes over list append, preferring the left table. -/
theorem tlookup_append (l₁ l₂ : List (String × String)) (k : String) :
    tlookup (l₁ ++ l₂) k =
      match tlookup l₁ k with
      | some v => some v
      | none => tlookup l₂ k := by
  unfold tlookup
  rw [List.find?_append]
  cases h : List.find? (fun p => p.1 == k) l₁ <;> simp [Option.or]

/-- The rounded compass index of `degrees_to_direction`, computed in `ℕ`:
`round(d / 22.5)` equals `(4d + 45) / 90` (no tie is possible, since
`2d/45` is never a half-integer for integer `d`). -/
theorem degrees_to_direction_some (d : ℕ) :
    degrees_to_direction (some d) =
      (tlookup wind_directions (directions.getD ((4 * d + 45) / 90 % 16) "N")).getD
        (directions.getD ((4 * d + 45) / 90 % 16) "N") := by
  have hr : round ((d : ℚ) / 22.5) = (4 * (d : ℤ) + 45) / 90 := by
    rw [round_eq]
    have h : (d : ℚ) / 22.5 + 1 / 2 = ((4 * (d : ℤ) + 45 : ℤ) : ℚ) / ((90 : ℕ) : ℚ) := by
      push_cast; ring
    rw [h, Rat.floor_intCast_div_natCast]
    norm_num
  have hi : ((4 * (d : ℤ) + 45) / 90 % 16).toNat = (4 * d + 45) / 90 % 16 := by
    have h1 : (4 * (d : ℤ) + 45) = ((4 * d + 45 : ℕ) : ℤ) := by push_cast; ring
    rw [h1, show ((90 : ℤ)) = ((90 : ℕ) : ℤ) from rfl, show ((16 : ℤ)) = ((16 : ℕ) : ℤ) from rfl,
      ← Int.natCast_div, ← Int.natCast_mod, Int.toNat_natCast]
  show (tlookup wind_directions (directions.getD (round ((d : ℚ) / 22.5) % 16).toNat "N")).getD
      (directions.getD (round ((d : ℚ) / 22.5) % 16).toNat "N") = _
  rw [hr, hi]

/-- `windEffect` with the compass index spelled out in `ℕ` arithmetic (the
evaluatable form of the wind classifier). -/
theorem windEffect_eval (t : String) :
    windEffect t = (parseWind t.data).map (fun pg =>
      if pg.2.1 = 0 then ⟨"Calm", 0, none, none⟩
      else
        let dir_text := match pg.1 with
          | none => "variable"
          | some d => (tlookup wind_directions (directions.getD ((4 * d + 45) / 90 % 16) "N")).getD
              (directions.getD ((4 * d + 45) / 90 % 16) "N")
        ⟨"From the " ++ pyLower dir_text, pg.2.1, some dir_text, pg.2.2⟩) := by
  unfold windEffect
  congr 1
  funext pg
  cases h : pg.1 with
  | none => rfl
  | some d => simp only [degrees_to_direction_some]

/-- `celsius_to_fahrenheit` as integer floor division (no tie is possible,
since `9c/5 + 32` is never a half-integer for integer `c`). -/
theorem celsius_to_fahrenheit_eval (c : ℤ) : celsius_to_fahrenheit c = (18 * c + 325) / 10 := by
  unfold celsius_to_fahrenheit
  rw [round_eq]
  have h : (c : ℚ) * 9 / 5 + 32 + 1 / 2 = ((18 * c + 325 : ℤ) : ℚ) / ((10 : ℕ) : ℚ) := by
    push_cast; ring
  rw [h, Rat.floor_intCast_div_natCast]
  norm_num

/-- `decode_visibility` on an integer value, with the thresholds moved to
`ℕ`. -/
theorem decode_visibility_int (n : ℕ) :
    decode_visibility (.int n) =
      if 10 ≤ n then "10+ miles"
      else if 1 ≤ n then toString n ++ " miles"
      else toString n ++ " mile" := by
  have h10 : (10 ≤ (VisValue.int n).toQ) ↔ 10 ≤ n := by
    simp only [VisValue.toQ]
    exact_mod_cast Iff.rfl
  have h1 : (1 ≤ (VisValue.int n).toQ) ↔ 1 ≤ n := by
    simp only [VisValue.toQ]
    exact_mod_cast Iff.rfl
  unfold decode_visibility
  simp only [h10, h1]
  rfl

/-- `decode_visibility` on a fractional value with nonzero denominator, with
the thresholds moved to `ℕ`. -/
theorem decode_visibility_frac (n d : ℕ) (hd : 0 < d) :
    decode_visibility (.frac n d) =
      if 10 * d ≤ n then "10+ miles"
      else if d ≤ n then (VisValue.frac n d).render ++ " miles"
      else (VisValue.frac n d).render ++ " mile" := by
  have hdq : (0 : ℚ) < d := by exact_mod_cast hd
  have h10 : (10 ≤ (VisValue.frac n d).toQ) ↔ 10 * d ≤ n := by
    simp only [VisValue.toQ]
    rw [le_div_iff₀ hdq]
    exact_mod_cast Iff.rfl
  have h1 : (1 ≤ (VisValue.frac n d).toQ) ↔ d ≤ n := by
    simp only [VisValue.toQ]
    rw [le_div_iff₀ hdq, one_mul]
    exact_mod_cast Iff.rfl
  unfold decode_visibility
  simp only [h10, h1]

/-- On a time token, `decode_metar` sets only the time field and `continue`s. -/
theorem applyToken_time (r : MetarResult) (t : String) (h : timeMatch t = true) :
    applyToken r t = some { r with time := some (renderTime t) } := by
  simp [applyToken, h]

/-- On a non-time token, one loop iteration applies every classifier's
effect: each field receives its own classifier's outcome (an exception in
the visibility or temperature branch aborts the iteration). -/
theorem applyToken_not_time (r : MetarResult) (t : String) (h : timeMatch t = false) :
    applyToken r t =
      match visEffect t, tempEffect t with
      | some vOpt, some tdOpt =>
        some
          { wind := match windEffect t with
              | some w => some w
              | none => r.wind,
            visibility := match vOpt with
              | some v => some v
              | none => r.visibility,
            temperature := match tdOpt with
              | some td => some ⟨td.1, celsius_to_fahrenheit td.1⟩
              | none => r.temperature,
            dewpoint := match tdOpt with
              | some td => some ⟨td.2, celsius_to_fahrenheit td.2⟩
              | none => r.dewpoint,
            sky_conditions := r.sky_conditions ++ (skyEffect t).toList,
            weather_phenomena := r.weather_phenomena ++ (phenomEffect t).toList,
            pressure := match pressureEffect t with
              | some p => some p
              | none => r.pressure,
            time := r.time }
      | _, _ => none := by
  simp only [applyToken, h, Bool.false_eq_true, if_false, applyWind, applyVis, applyTempDew,
    applySky, applyPhenom, applyPressure]
  cases hv : visEffect t with
  | none => rfl
  | some vOpt =>
    cases htd : tempEffect t with
    | none =>
      cases vOpt <;> simp [Option.bind, Option.map]
    | some tdOpt =>
      cases vOpt <;> cases tdOpt <;>
        cases hw : windEffect t <;> cases hs : skyEffect t <;>
        cases hp : phenomEffect t <;> cases hpr : pressureEffect t <;>
        simp [Option.bind, Option.map, Option.toList]


/-- A decimal digit is not an uppercase letter (regex class disjointness). -/
theorem isDigit_not_upper (c : Char) (h : c.isDigit = true) : isUpperAZ c = false := by
  simp only [Char.isDigit, Bool.and_eq_true, decide_eq_true_eq, UInt32.le_def, BitVec.le_def] at h
  simp only [isUpperAZ, Char.isUpper, Bool.and_eq_false_iff, decide_eq_false_iff_not,
    UInt32.le_def, BitVec.le_def]
  simp only [show (UInt32.toBitVec 48).toNat = 48 from rfl,
    show (UInt32.toBitVec 57).toNat = 57 from rfl] at h
  simp only [show (UInt32.toBitVec 65).toNat = 65 from rfl,
    show (UInt32.toBitVec 90).toNat = 90 from rfl]
  omega

theorem isUpper_not_digit (c : Char) (h : isUpperAZ c = true) : c.isDigit = false := by
  cases hd : c.isDigit with
  | false => rfl
  | true => rw [isDigit_not_upper c hd] at h; exact absurd h (by simp)

theorem timeMatch_head (t : String) (h : timeMatch t = true) :
    ∃ a rest, t.data = a :: rest ∧ a.isDigit = true := by
  unfold timeMatch at h
  split at h
  · next a b c d e f rest heq =>
    exact ⟨a, _, heq, by simp only [Bool.and_eq_true] at h; exact h.1.1.1.1.1⟩
  · exact absurd h (by simp)

theorem timeMatch_sky (t : String) (h : timeMatch t = true) : skyEffect t = none := by
  obtain ⟨a, rest, heq, ha⟩ := timeMatch_head t h
  have hc : skyCodes.contains (String.mk (t.data.take 3)) = false := by
    rw [heq]
    cases hmem : skyCodes.contains (String.mk ((a :: rest).take 3)) with
    | false => rfl
    | true =>
      exfalso
      simp only [skyCodes, List.contains_cons, List.contains_nil, Bool.or_false,
        Bool.or_eq_true, beq_iff_eq, List.take_succ_cons] at hmem
      rcases hmem with h' | h' | h' | h' | h' | h' <;>
      · have hd : a :: rest.take 2 = _ := congrArg String.data h'
        injection hd with h1 _
        rw [h1] at ha
        exact absurd ha (by decide)
  simp only [skyEffect]
  rw [hc]
  simp

theorem timeMatch_phenom (t : String) (h : timeMatch t = true) : phenomEffect t = none := by
  obtain ⟨a, rest, heq, ha⟩ := timeMatch_head t h
  have hsign : a ≠ '-' ∧ a ≠ '+' := by
    constructor <;> intro hs <;> rw [hs] at ha <;> exact absurd ha (by decide)
  have hp : phenomMatchB t.data = false := by
    rw [heq]
    unfold phenomMatchB
    have hcond : ¬((a :: rest).head? = some '-' ∨ (a :: rest).head? = some '+') := by
      simp [hsign.1, hsign.2]
    rw [if_neg hcond]
    cases rest with
    | nil => rfl
    | cons b bs => simp [isDigit_not_upper a ha]
  simp only [phenomEffect]
  rw [hp]
  simp


/-- One loop iteration raises (returns `none`) exactly when the token is not
a time token and either the visibility or the temperature branch raises. -/
theorem applyToken_eq_none_iff (r : MetarResult) (t : String) :
    applyToken r t = none ↔
      timeMatch t = false ∧ (visEffect t = none ∨ tempEffect t = none) := by
  cases ht : timeMatch t with
  | true => rw [applyToken_time r t ht]; simp
  | false =>
    rw [applyToken_not_time r t ht]
    cases hv : visEffect t <;> cases htd : tempEffect t <;> simp

theorem applyToken_sky (r : MetarResult) (t : String) (r' : MetarResult)
    (h : applyToken r t = some r') :
    r'.sky_conditions = r.sky_conditions ++ (skyEffect t).toList := by
  cases ht : timeMatch t with
  | true =>
    rw [applyToken_time r t ht] at h
    rw [timeMatch_sky t ht]
    injection h with h'
    rw [← h']
    simp
  | false =>
    rw [applyToken_not_time r t ht] at h
    cases hv : visEffect t <;> rw [hv] at h <;> cases htd : tempEffect t <;>
      try rw [htd] at h
    · exact absurd h (by simp)
    · exact absurd h (by simp)
    · exact absurd h (by simp)
    · injection h with h'
      rw [← h']

theorem applyToken_phenom (r : MetarResult) (t : String) (r' : MetarResult)
    (h : applyToken r t = some r') :
    r'.weather_phenomena = r.weather_phenomena ++ (phenomEffect t).toList := by
  cases ht : timeMatch t with
  | true =>
    rw [applyToken_time r t ht] at h
    rw [timeMatch_phenom t ht]
    injection h with h'
    rw [← h']
    simp
  | false =>
    rw [applyToken_not_time r t ht] at h
    cases hv : visEffect t <;> rw [hv] at h <;> cases htd : tempEffect t <;>
      try rw [htd] at h
    · exact absurd h (by simp)
    · exact absurd h (by simp)
    · exact absurd h (by simp)
    · injection h with h'
      rw [← h']

theorem foldlM_applyToken_none_iff (l : List String) (r : MetarResult) :
    List.foldlM applyToken r l = none ↔
      ∃ t ∈ l, timeMatch t = false ∧ (visEffect t = none ∨ tempEffect t = none) := by
  induction l generalizing r with
  | nil => simp [List.foldlM]
  | cons t ts ih =>
    rw [List.foldlM_cons]
    cases ha : applyToken r t with
    | none =>
      simp only [Option.bind_eq_bind, Option.none_bind]
      constructor
      · intro _
        exact ⟨t, List.mem_cons_self t ts, (applyToken_eq_none_iff r t).mp ha⟩
      · intro _
        trivial
    | some r1 =>
      simp only [Option.bind_eq_bind, Option.some_bind]
      rw [ih r1]
      constructor
      · rintro ⟨u, hu, hbad⟩
        exact ⟨u, List.mem_cons_of_mem t hu, hbad⟩
      · rintro ⟨u, hu, hbad⟩
        rcases List.mem_cons.mp hu with rfl | hu'
        · exfalso
          rw [(applyToken_eq_none_iff r u).mpr hbad] at ha
          exact Option.noConfusion ha
        · exact ⟨u, hu', hbad⟩

theorem foldlM_sky (l : List String) (r r' : MetarResult)
    (h : List.foldlM applyToken r l = some r') :
    r'.sky_conditions = r.sky_conditions ++ l.filterMap skyEffect := by
  induction l generalizing r with
  | nil =>
    simp only [List.foldlM] at h
    injection h with h'
    rw [← h']
    simp
  | cons t ts ih =>
    rw [List.foldlM_cons] at h
    cases ha : applyToken r t with
    | none => rw [ha] at h; exact absurd h (by simp)
    | some r1 =>
      rw [ha] at h
      simp only [Option.bind_eq_bind, Option.some_bind] at h
      rw [ih r1 h, applyToken_sky r t r1 ha, List.filterMap_cons]
      cases skyEffect t <;> simp

theorem foldlM_phenom (l : List String) (r r' : MetarResult)
    (h : List.foldlM applyToken r l = some r') :
    r'.weather_phenomena = r.weather_phenomena ++ l.filterMap phenomEffect := by
  induction l generalizing r with
  | nil =>
    simp only [List.foldlM] at h
    injection h with h'
    rw [← h']
    simp
  | cons t ts ih =>
    rw [List.foldlM_cons] at h
    cases ha : applyToken r t with
    | none => rw [ha] at h; exact absurd h (by simp)
    | some r1 =>
      rw [ha] at h
      simp only [Option.bind_eq_bind, Option.some_bind] at h
      rw [ih r1 h, applyToken_phenom r t r1 ha, List.filterMap_cons]
      cases phenomEffect t <;> simp


/-- The three-table scanning loop agrees with the spec's single ordered
rule-list scan. -/
theorem phenomScan_eq_spec (cs : List Char) : phenomScan cs = specPhenomScan cs := by
  induction cs using phenomScan.induct
  case case5 cs h =>
    rcases cs with _ | ⟨a, _ | ⟨b, r⟩⟩
    · rfl
    · rfl
    · exact absurd rfl (h a b r)
  all_goals
    rw [phenomScan, specPhenomScan]
    simp_all [spec_phenomenon_rules, tlookup_append]

theorem decode_weather_phenomenon_eq_spec (p : String) :
    decode_weather_phenomenon p = spec_decode_weather_phenomenon p := by
  unfold decode_weather_phenomenon spec_decode_weather_phenomenon
  cases p.data with
  | nil => rfl
  | cons c rest => simp [phenomScan_eq_spec]


/-! ## Claim theorems -/

/-- C1: `decode_weather_phenomenon` composes the description left-to-right —
optional intensity sign via the intensity table, then repeated 2-character
slices matched against descriptor, then precipitation, then obscuration (one
ordered rule list), unmatched slices skipped, raw token echoed when the
composition is empty — and decodes the four reference examples. -/
theorem claim_C1_phenomenon_composition :
    (∀ p : String, decode_weather_phenomenon p = spec_decode_weather_phenomenon p) ∧
    decode_weather_phenomenon "RA" = "rain" ∧
    decode_weather_phenomenon "-RA" = "Light rain" ∧
    decode_weather_phenomenon "+RA" = "Heavy rain" ∧
    decode_weather_phenomenon "TSRA" = "Thunderstorms with rain" ∧
    decode_weather_phenomenon "AO2" = "AO2" :=
  ⟨decode_weather_phenomenon_eq_spec, by decide, by decide, by decide, by decide, by decide⟩

/-- C5: the compass conversion is periodic modulo 360 degrees and maps the
reference degrees to their compass names (index = round(d / 22.5) mod 16 into
the 16-entry rose). -/
theorem claim_C5_compass :
    (∀ d : ℕ, degrees_to_direction (some (d % 360)) = degrees_to_direction (some d)) ∧
    degrees_to_direction (some 0) = "North" ∧
    degrees_to_direction (some 360) = "North" ∧
    degrees_to_direction (some 45) = "Northeast" ∧
    degrees_to_direction (some 225) = "Southwest" := by
  refine ⟨fun d => ?_, ?_, ?_, ?_, ?_⟩
  · rw [degrees_to_direction_some, degrees_to_direction_some]
    have hmod : (4 * (d % 360) + 45) / 90 % 16 = (4 * d + 45) / 90 % 16 := by
      conv_rhs => rw [show d = d % 360 + 360 * (d / 360) from (Nat.mod_add_div d 360).symm]
      rw [show 4 * (d % 360 + 360 * (d / 360)) + 45
          = (4 * (d % 360) + 45) + 90 * (16 * (d / 360)) by ring]
      rw [Nat.add_mul_div_left _ _ (by norm_num : (0 : ℕ) < 90), Nat.add_mul_mod_self_left]
    rw [hmod]
  · rw [degrees_to_direction_some]; decide
  · rw [degrees_to_direction_some]; decide
  · rw [degrees_to_direction_some]; decide
  · rw [degrees_to_direction_some]; decide

/-- C6: a leading `M` negates a temperature half; temperature and dewpoint
are always set together from the single matching token; Fahrenheit is
`round(c * 9/5 + 32)` with the four reference values; and for integer
Celsius the pre-rounding value is never a tie (never of the form m + 1/2). -/
theorem claim_C6_temp_dewpoint :
    (∀ (r : MetarResult) (t : String) (r' : MetarResult), applyToken r t = some r' →
       (r'.temperature = r.temperature ∧ r'.dewpoint = r.dewpoint) ∨
       (∃ tc dc, tempEffect t = some (some (tc, dc)) ∧
          r'.temperature = some ⟨tc, celsius_to_fahrenheit tc⟩ ∧
          r'.dewpoint = some ⟨dc, celsius_to_fahrenheit dc⟩)) ∧
    (∀ cs : List Char, parseSigned ('M' :: cs) = (pyParseNat cs).map (fun n => -(n : ℤ))) ∧
    (∀ c : ℤ, celsius_to_fahrenheit c = round ((c : ℚ) * 9 / 5 + 32)) ∧
    celsius_to_fahrenheit 0 = 32 ∧ celsius_to_fahrenheit 100 = 212 ∧
    celsius_to_fahrenheit (-40) = -40 ∧ celsius_to_fahrenheit (-10) = 14 ∧
    (∀ c m : ℤ, (c : ℚ) * 9 / 5 + 32 ≠ (m : ℚ) + 1 / 2) := by
  refine ⟨?_, fun cs => rfl, fun c => rfl, ?_, ?_, ?_, ?_, ?_⟩
  · intro r t r' h
    cases ht : timeMatch t with
    | true =>
      rw [applyToken_time r t ht] at h
      injection h with h'
      rw [← h']
      exact Or.inl ⟨rfl, rfl⟩
    | false =>
      rw [applyToken_not_time r t ht] at h
      cases hv : visEffect t <;> rw [hv] at h
      · exact absurd h (by simp)
      cases htd : tempEffect t <;> rw [htd] at h
      · exact absurd h (by simp)
      next vOpt tdOpt =>
      injection h with h'
      rw [← h']
      cases tdOpt with
      | none => exact Or.inl ⟨rfl, rfl⟩
      | some td =>
        obtain ⟨tc, dc⟩ := td
        exact Or.inr ⟨tc, dc, rfl, rfl, rfl⟩
  · rw [celsius_to_fahrenheit_eval]; decide
  · rw [celsius_to_fahrenheit_eval]; decide
  · rw [celsius_to_fahrenheit_eval]; decide
  · rw [celsius_to_fahrenheit_eval]; decide
  · intro c m h
    have h2 : (18 * c + 320 : ℚ) = 10 * m + 5 := by linear_combination 10 * h
    have h3 : (18 * c + 320 : ℤ) = 10 * m + 5 := by exact_mod_cast h2
    omega

/-- C6 witness: the theorem applied to the token "M05/M10" on a fresh
result record. -/
theorem claim_C6_witness :
    (({ wind := none, visibility := none,
        temperature := some ⟨-5, celsius_to_fahrenheit (-5)⟩,
        dewpoint := some ⟨-10, celsius_to_fahrenheit (-10)⟩,
        sky_conditions := [], weather_phenomena := [], pressure := none,
        time := none } : MetarResult).temperature = initResult.temperature ∧
     ({ wind := none, visibility := none,
        temperature := some ⟨-5, celsius_to_fahrenheit (-5)⟩,
        dewpoint := some ⟨-10, celsius_to_fahrenheit (-10)⟩,
        sky_conditions := [], weather_phenomena := [], pressure := none,
        time := none } : MetarResult).dewpoint = initResult.dewpoint) ∨
    (∃ tc dc, tempEffect "M05/M10" = some (some (tc, dc)) ∧
       ({ wind := none, visibility := none,
          temperature := some ⟨-5, celsius_to_fahrenheit (-5)⟩,
          dewpoint := some ⟨-10, celsius_to_fahrenheit (-10)⟩,
          sky_conditions := [], weather_phenomena := [], pressure := none,
          time := none } : MetarResult).temperature = some ⟨tc, celsius_to_fahrenheit tc⟩ ∧
       ({ wind := none, visibility := none,
          temperature := some ⟨-5, celsius_to_fahrenheit (-5)⟩,
          dewpoint := some ⟨-10, celsius_to_fahrenheit (-10)⟩,
          sky_conditions := [], weather_phenomena := [], pressure := none,
          time := none } : MetarResult).dewpoint = some ⟨dc, celsius_to_fahrenheit dc⟩) :=
  claim_C6_temp_dewpoint.1 initResult "M05/M10" _ rfl

/-- C7: visibility rendering follows the three threshold bands, an integer
token parses as an integer, and a fractional token parses as the quotient
(1/2SM gives one half, rendered "0.5 mile"). -/
theorem claim_C7_visibility :
    (∀ v : VisValue, 10 ≤ v.toQ → decode_visibility v = "10+ miles") ∧
    (∀ v : VisValue, 1 ≤ v.toQ → v.toQ < 10 → decode_visibility v = v.render ++ " miles") ∧
    (∀ v : VisValue, v.toQ < 1 → decode_visibility v = v.render ++ " mile") ∧
    visEffect "1/2SM" = some (some ⟨.frac 1 2, "0.5 mile"⟩) ∧
    (VisValue.frac 1 2).toQ = 1 / 2 ∧
    visEffect "3SM" = some (some ⟨.int 3, "3 miles"⟩) ∧
    visEffect "10SM" = some (some ⟨.int 10, "10+ miles"⟩) := by
  refine ⟨?_, ?_, ?_, ?_, ?_, ?_, ?_⟩
  · intro v h
    unfold decode_visibility
    rw [if_pos h]
  · intro v h1 h2
    unfold decode_visibility
    rw [if_neg (not_le.mpr h2), if_pos h1]
  · intro v h
    unfold decode_visibility
    rw [if_neg (not_le.mpr (lt_trans h (by norm_num))), if_neg (not_le.mpr h)]
  · have h : visEffect "1/2SM" = some (some ⟨.frac 1 2, decode_visibility (.frac 1 2)⟩) := rfl
    rw [h, decode_visibility_frac 1 2 (by norm_num)]
    decide
  · simp [VisValue.toQ]
  · have h : visEffect "3SM" = some (some ⟨.int 3, decode_visibility (.int 3)⟩) := rfl
    rw [h, decode_visibility_int 3]
    decide
  · have h : visEffect "10SM" = some (some ⟨.int 10, decode_visibility (.int 10)⟩) := rfl
    rw [h, decode_visibility_int 10]
    decide

/-- C7 witness: the three rendering bands applied at concrete values. -/
theorem claim_C7_witness :
    decode_visibility (.int 12) = "10+ miles" ∧
    decode_visibility (.int 5) = (VisValue.int 5).render ++ " miles" ∧
    decode_visibility (.frac 1 2) = (VisValue.frac 1 2).render ++ " mile" :=
  ⟨claim_C7_visibility.1 _ (by norm_num [VisValue.toQ]),
   claim_C7_visibility.2.1 _ (by norm_num [VisValue.toQ]) (by norm_num [VisValue.toQ]),
   claim_C7_visibility.2.2.1 _ (by norm_num [VisValue.toQ])⟩


/-- C2 (amended): empty input yields exactly the distinguished error result,
and whenever `decode_metar` returns on non-empty input the result is a
record, never the error and never a mix; however on certain malformed tokens
(for example a zero-denominator fractional visibility) `decode_metar` raises
instead of returning, so "for every non-empty input it returns a record"
does not hold as stated. -/
theorem claim_C2_error_result (s : String) :
    (s = "" → decode_metar s = some (.err "No METAR data available")) ∧
    (∀ o, decode_metar s = some o → ((∃ r, o = DecodeResult.ok r) ↔ s ≠ "")) := by
  constructor
  · intro h
    rw [h]
    rfl
  · intro o ho
    by_cases hs : s = ""
    · subst hs
      unfold decode_metar at ho
      rw [if_pos rfl] at ho
      injection ho with ho'
      constructor
      · rintro ⟨r, hr⟩
        rw [← ho'] at hr
        exact absurd hr (by simp)
      · intro h
        exact absurd rfl h
    · unfold decode_metar at ho
      rw [if_neg hs] at ho
      cases hf : (tokenize s.data).foldlM applyToken initResult with
      | none => rw [hf] at ho; exact absurd ho (by simp)
      | some r =>
        rw [hf] at ho
        injection ho with ho'
        exact ⟨fun _ => hs, fun _ => ⟨r, ho'.symm⟩⟩

/-- C2 counterexample: the non-empty input "3/0SM" makes `decode_metar`
raise (Python `ZeroDivisionError`), so it returns no record at all. -/
theorem claim_C2_counterexample :
    "3/0SM" ≠ "" ∧ decode_metar "3/0SM" = none :=
  ⟨by decide, by decide⟩

/-- C2 witness: the theorem applied at the empty string and at "RA". -/
theorem claim_C2_witness :
    decode_metar "" = some (.err "No METAR data available") ∧
    ((∃ r, DecodeResult.ok
        ⟨none, none, none, none, [], [⟨"RA", "rain"⟩], none, none⟩ = DecodeResult.ok r) ↔
      "RA" ≠ "") :=
  ⟨(claim_C2_error_result "").1 rfl, (claim_C2_error_result "RA").2 _ (by decide)⟩

/-- C3 (amended): `decode_metar` raises (returns `none`) exactly when some
token is a non-time token whose visibility or temperature branch raises; the
visibility branch can raise only on a token of the fractional-visibility
shape, and the temperature branch only on a token of the temperature/dewpoint
shape.  The claim's "never raises, in particular for a zero denominator" is
false: a zero-denominator fraction raises `ZeroDivisionError`. -/
theorem claim_C3_total_amended :
    (∀ s : String, decode_metar s = none ↔
       s ≠ "" ∧ ∃ t ∈ tokenize s.data,
         timeMatch t = false ∧ (visEffect t = none ∨ tempEffect t = none)) ∧
    (∀ t : String, visEffect t = none → fracVisMatch t.data = true) ∧
    (∀ t : String, tempEffect t = none → tempMatch t.data = true) := by
  refine ⟨fun s => ?_, fun t h => ?_, fun t h => ?_⟩
  · unfold decode_metar
    by_cases hs : s = ""
    · rw [if_pos hs]
      simp [hs]
    · rw [if_neg hs]
      cases hf : (tokenize s.data).foldlM applyToken initResult with
      | none =>
        constructor
        · intro _
          exact ⟨hs, (foldlM_applyToken_none_iff _ _).mp hf⟩
        · intro _
          rfl
      | some r =>
        constructor
        · intro h
          exact absurd h (by simp)
        · rintro ⟨-, hbad⟩
          have hn := (foldlM_applyToken_none_iff (tokenize s.data) initResult).mpr hbad
          rw [hf] at hn
          exact absurd hn (by simp)
  · by_cases h1 : intVisMatch t.data
    · rw [visEffect, if_pos h1] at h
      exact absurd h (by simp)
    · by_cases h2 : fracVisMatch t.data
      · exact h2
      · rw [visEffect, if_neg h1, if_neg h2] at h
        exact absurd h (by simp)
  · by_cases h1 : tempMatch t.data
    · exact h1
    · rw [tempEffect, if_neg h1] at h
      exact absurd h (by simp)

/-- C3 counterexample: on the zero-denominator fractional-visibility token
"1/0SM" the decoder raises (`ZeroDivisionError`) instead of returning. -/
theorem claim_C3_counterexample :
    decode_metar "1/0SM" = none ∧ fracVisMatch "1/0SM".data = true :=
  ⟨by decide, by decide⟩

/-- C3 witness: the raising tokens are of the fractional-visibility and
temperature shapes. -/
theorem claim_C3_witness :
    fracVisMatch "2/0SM".data = true ∧ tempMatch "12/34SM".data = true :=
  ⟨claim_C3_total_amended.2.1 "2/0SM" (by decide),
   claim_C3_total_amended.2.2 "12/34SM" (by decide)⟩

/-- C4: a wind match with zero parsed speed yields the fixed Calm
observation (direction and gust absent) regardless of the direction digits;
a nonzero speed yields description "From the " plus the lowercased compass
name (VRB giving "from the variable") and the parsed gust. -/
theorem claim_C4_wind :
    (∀ (t : String) (w : WindObs), windEffect t = some w →
       (w.speed = 0 → w = ⟨"Calm", 0, none, none⟩) ∧
       (w.speed ≠ 0 → ∃ dir g, parseWind t.data = some (dir, w.speed, g) ∧
          w.description = "From the " ++ pyLower (degrees_to_direction dir) ∧
          w.direction = some (degrees_to_direction dir) ∧ w.gust = g)) ∧
    degrees_to_direction none = "variable" ∧
    windEffect "09000KT" = some ⟨"Calm", 0, none, none⟩ ∧
    windEffect "VRB05KT" = some ⟨"From the variable", 5, some "variable", none⟩ := by
  refine ⟨?_, rfl, by decide, by decide⟩
  intro t w h
  unfold windEffect at h
  cases hp : parseWind t.data with
  | none => rw [hp] at h; exact absurd h (by simp)
  | some pg =>
    rw [hp] at h
    obtain ⟨dir, sp, g⟩ := pg
    by_cases hz : sp = 0
    · subst hz
      have h2 : some (⟨"Calm", 0, none, none⟩ : WindObs) = some w := h
      injection h2 with h'
      constructor
      · intro _
        exact h'.symm
      · intro hne
        rw [← h'] at hne
        exact absurd rfl hne
    · have h2 : some (if sp = 0 then (⟨"Calm", 0, none, none⟩ : WindObs)
          else ⟨"From the " ++ pyLower (degrees_to_direction dir), sp,
            some (degrees_to_direction dir), g⟩) = some w := h
      rw [if_neg hz] at h2
      injection h2 with h'
      rw [← h']
      exact ⟨fun hsp => absurd hsp hz, fun _ => ⟨dir, g, rfl, rfl, rfl, rfl⟩⟩

/-- C4 witness: the theorem applied to the variable-direction token
"VRB05KT". -/
theorem claim_C4_witness :
    ∃ dir g, parseWind "VRB05KT".data = some (dir, 5, g) ∧
      "From the variable" = "From the " ++ pyLower (degrees_to_direction dir) ∧
      (some "variable" : Option String) = some (degrees_to_direction dir) ∧
      (none : Option ℕ) = g :=
  (claim_C4_wind.1 "VRB05KT" ⟨"From the variable", 5, some "variable", none⟩
    (by decide)).2 (by decide)


theorem windShapeB_false_head (a : Char) (cs : List Char) (h : a.isDigit = false) :
    windShapeB (a :: cs) = false := by
  rcases cs with _ | ⟨b, _ | ⟨c, _ | ⟨d, _ | ⟨e, r⟩⟩⟩⟩ <;> simp [windShapeB, h]

theorem letterDigitsB_false_head (a : Char) (cs : List Char) (h : isUpperAZ a = false) :
    letterDigitsB (a :: cs) = false := by
  rcases cs with _ | ⟨b, _ | ⟨c, _ | ⟨d, _ | ⟨e, r⟩⟩⟩⟩ <;> simp [letterDigitsB, h]

theorem letterDigitsB_false_second (a b : Char) (cs : List Char) (h : b.isDigit = false) :
    letterDigitsB (a :: b :: cs) = false := by
  rcases cs with _ | ⟨c, _ | ⟨d, _ | ⟨e, r⟩⟩⟩ <;> simp [letterDigitsB, h]

/-- A token accepted by the phenomenon pattern can match neither the
wind-speed-shape exclusion nor the letter-plus-4-digits exclusion. -/
theorem phenom_exclusions (cs : List Char) (h : phenomMatchB cs = true) :
    windShapeB cs = false ∧ letterDigitsB cs = false := by
  unfold phenomMatchB at h
  by_cases hc : cs.head? = some '-' ∨ cs.head? = some '+'
  · cases cs with
    | nil => simp at hc
    | cons a tail =>
      have ha : a = '-' ∨ a = '+' := by
        rcases hc with hc | hc <;> simp at hc <;> [exact Or.inl hc; exact Or.inr hc]
      have hd : a.isDigit = false := by rcases ha with rfl | rfl <;> decide
      have hu : isUpperAZ a = false := by rcases ha with rfl | rfl <;> decide
      exact ⟨windShapeB_false_head a tail hd, letterDigitsB_false_head a tail hu⟩
  · rw [if_neg hc] at h
    cases cs with
    | nil => exact absurd h (by simp)
    | cons a tail =>
      cases tail with
      | nil => exact absurd h (by simp)
      | cons b r =>
        simp only [Bool.and_eq_true] at h
        exact ⟨windShapeB_false_head a _ (isUpper_not_digit a h.1),
          letterDigitsB_false_second a b _ (isUpper_not_digit b h.2)⟩

/-- A token starting with two uppercase letters and not literally AUTO, COR
or RMK is appended to the phenomena list. -/
theorem phenomEffect_isSome_of_upper2 (t : String) (c1 c2 : Char) (rest : List Char)
    (hdata : t.data = c1 :: c2 :: rest) (h1 : isUpperAZ c1 = true) (h2 : isUpperAZ c2 = true)
    (hne : t ≠ "AUTO" ∧ t ≠ "COR" ∧ t ≠ "RMK") : (phenomEffect t).isSome = true := by
  have hm : phenomMatchB t.data = true := by
    rw [hdata]
    unfold phenomMatchB
    have hc : ¬((c1 :: c2 :: rest).head? = some '-' ∨ (c1 :: c2 :: rest).head? = some '+') := by
      rintro (hc | hc) <;> simp at hc <;> rw [hc] at h1 <;> exact absurd h1 (by decide)
    rw [if_neg hc]
    simp [h1, h2]
  obtain ⟨hw, hl⟩ := phenom_exclusions t.data hm
  unfold phenomEffect
  rw [hm, hw, hl]
  have hb : (t == "AUTO" || t == "COR" || t == "RMK") = false := by
    simp only [Bool.or_eq_false_iff, beq_eq_false_iff_ne, ne_eq]
    exact ⟨⟨hne.1, hne.2.1⟩, hne.2.2⟩
  rw [hb]
  rfl


/-- C8: a token appends a sky layer exactly when its first three characters
spell one of the six codes; the height is the parsed 3-digit group times 100
when those digits are present (hence always a multiple of 100) and absent
otherwise; and the sky layers of a decoded report accumulate in token
order. -/
theorem claim_C8_sky_layers :
    (∀ t : String, (skyEffect t).isSome = skyCodes.contains (String.mk (t.data.take 3))) ∧
    (∀ (t : String) (l : SkyLayer), skyEffect t = some l →
       l.height = (match t.data.drop 3 with
         | a :: b :: c :: _ =>
           if a.isDigit && b.isDigit && c.isDigit then some (digitsVal [a, b, c] * 100)
           else none
         | _ => none) ∧
       ∀ h, l.height = some h → h % 100 = 0) ∧
    (∀ (s : String) (r : MetarResult), decode_metar s = some (.ok r) →
       r.sky_conditions = (tokenize s.data).filterMap skyEffect) := by
  refine ⟨fun t => ?_, fun t l hl => ?_, fun s r hr => ?_⟩
  · unfold skyEffect
    by_cases hc : skyCodes.contains (String.mk (t.data.take 3)) = true
    · rw [hc, if_pos hc]
      rfl
    · rw [if_neg hc]
      simp only [Bool.not_eq_true] at hc
      rw [hc]
      rfl
  · unfold skyEffect at hl
    by_cases hc : skyCodes.contains (String.mk (t.data.take 3)) = true
    · rw [if_pos hc] at hl
      injection hl with hl'
      constructor
      · rw [← hl']
        rcases hd : t.data.drop 3 with _ | ⟨a, _ | ⟨b, _ | ⟨c, rest⟩⟩⟩ <;>
          simp only [hd] <;>
          try rfl
        by_cases hdig : (a.isDigit && b.isDigit && c.isDigit) = true <;> simp [hdig]
      · intro h hh
        rw [← hl'] at hh
        rcases hd : t.data.drop 3 with _ | ⟨a, _ | ⟨b, _ | ⟨c, rest⟩⟩⟩ <;>
          rw [hd] at hh <;> simp at hh
        rcases hh with ⟨-, hv⟩
        rw [← hv]
        exact Nat.mul_mod_left _ _
    · rw [if_neg hc] at hl
      exact absurd hl (by simp)
  · unfold decode_metar at hr
    by_cases hs : s = ""
    · rw [if_pos hs] at hr
      injection hr with hr'
      exact absurd hr' (by simp)
    · rw [if_neg hs] at hr
      cases hf : (tokenize s.data).foldlM applyToken initResult with
      | none => rw [hf] at hr; exact absurd hr (by simp)
      | some r0 =>
        rw [hf] at hr
        injection hr with hr'
        injection hr' with hr''
        have := foldlM_sky (tokenize s.data) initResult r0 hf
        rw [← hr'']
        simpa [initResult] using this

/-- C8 witness: the accumulation applied to the concrete report
"CLR BKN008". -/
theorem claim_C8_witness :
    ({ wind := none, visibility := none, temperature := none, dewpoint := none,
       sky_conditions := [⟨"CLR", "Clear skies", none⟩, ⟨"BKN", "Broken clouds", some 800⟩],
       weather_phenomena := [⟨"CLR", "CLR"⟩, ⟨"BKN008", "BKN008"⟩],
       pressure := none, time := none } : MetarResult).sky_conditions
      = (tokenize "CLR BKN008".data).filterMap skyEffect :=
  claim_C8_sky_layers.2.2 "CLR BKN008" _ (by decide)

/-- C9: a time token (six digits then Z) sets only the time field — rendered
as day, literal "th at ", hour, ":", minute, " UTC" — and short-circuits all
other classifiers; every non-time token instead receives the effects of all
classifiers whose patterns it matches (each field follows its own
classifier). -/
theorem claim_C9_time_short_circuit :
    (∀ (t : String) (r : MetarResult), timeMatch t = true →
       applyToken r t = some { r with time := some (renderTime t) } ∧
       renderTime t = String.mk (t.data.take 2) ++ "th at " ++
         String.mk ((t.data.drop 2).take 2) ++ ":" ++
         String.mk ((t.data.drop 4).take 2) ++ " UTC") ∧
    (∀ (t : String) (r r' : MetarResult), timeMatch t = false → applyToken r t = some r' →
       r'.time = r.time ∧
       r'.wind = (match windEffect t with
         | some w => some w
         | none => r.wind) ∧
       (∃ vOpt, visEffect t = some vOpt ∧
          r'.visibility = (match vOpt with
            | some v => some v
            | none => r.visibility)) ∧
       (∃ tdOpt, tempEffect t = some tdOpt ∧
          r'.temperature = (match tdOpt with
            | some td => some ⟨td.1, celsius_to_fahrenheit td.1⟩
            | none => r.temperature) ∧
          r'.dewpoint = (match tdOpt with
            | some td => some ⟨td.2, celsius_to_fahrenheit td.2⟩
            | none => r.dewpoint)) ∧
       r'.sky_conditions = r.sky_conditions ++ (skyEffect t).toList ∧
       r'.weather_phenomena = r.weather_phenomena ++ (phenomEffect t).toList ∧
       r'.pressure = (match pressureEffect t with
         | some p => some p
         | none => r.pressure)) := by
  constructor
  · intro t r h
    refine ⟨applyToken_time r t h, ?_⟩
    unfold timeMatch at h
    split at h
    · next a b c d e f rest heq =>
      unfold renderTime
      rw [heq]
      rfl
    · exact absurd h (by simp)
  · intro t r r' ht h
    rw [applyToken_not_time r t ht] at h
    cases hv : visEffect t <;> rw [hv] at h
    · exact absurd h (by simp)
    cases htd : tempEffect t <;> rw [htd] at h
    · exact absurd h (by simp)
    next vOpt tdOpt =>
    injection h with h'
    rw [← h']
    exact ⟨rfl, rfl, ⟨vOpt, rfl, rfl⟩, ⟨tdOpt, rfl, rfl, rfl⟩, rfl, rfl, rfl⟩

/-- C9 witness: the time clause applied to "161251Z" and the non-time clause
applied to "RMK", both on a fresh record. -/
theorem claim_C9_witness :
    (applyToken initResult "161251Z"
        = some { initResult with time := some (renderTime "161251Z") } ∧
      renderTime "161251Z" = String.mk ("161251Z".data.take 2) ++ "th at " ++
        String.mk (("161251Z".data.drop 2).take 2) ++ ":" ++
        String.mk (("161251Z".data.drop 4).take 2) ++ " UTC") ∧
    (initResult.time = initResult.time ∧
      initResult.wind = (match windEffect "RMK" with
        | some w => some w
        | none => initResult.wind) ∧
      (∃ vOpt, visEffect "RMK" = some vOpt ∧
         initResult.visibility = (match vOpt with
           | some v => some v
           | none => initResult.visibility)) ∧
      (∃ tdOpt, tempEffect "RMK" = some tdOpt ∧
         initResult.temperature = (match tdOpt with
           | some td => some ⟨td.1, celsius_to_fahrenheit td.1⟩
           | none => initResult.temperature) ∧
         initResult.dewpoint = (match tdOpt with
           | some td => some ⟨td.2, celsius_to_fahrenheit td.2⟩
           | none => initResult.dewpoint)) ∧
      initResult.sky_conditions = initResult.sky_conditions ++ (skyEffect "RMK").toList ∧
      initResult.weather_phenomena
        = initResult.weather_phenomena ++ (phenomEffect "RMK").toList ∧
      initResult.pressure = (match pressureEffect "RMK" with
        | some p => some p
        | none => initResult.pressure)) :=
  ⟨claim_C9_time_short_circuit.1 "161251Z" initResult (by decide),
   claim_C9_time_short_circuit.2 "RMK" initResult initResult (by decide) (by decide)⟩

/-- C10: a token is appended to the phenomena list exactly when it matches
the optional-sign two-uppercase-letters pattern and is not literally AUTO,
COR or RMK — the wind-shape and letter-digits exclusions can never fire on a
pattern-accepted token; every sky-condition token is also appended to the
phenomena; the phenomena accumulate in token order; and on the reference
report the keyword METAR, the station KJFK, the sky token CLR and the remark
AO2 all land in the phenomena, each echoed raw. -/
theorem claim_C10_phenomena_membership :
    (∀ t : String, phenomEffect t =
       (if phenomMatchB t.data = true ∧ ¬(t = "AUTO" ∨ t = "COR" ∨ t = "RMK") then
          some ⟨t, decode_weather_phenomenon t⟩ else none)) ∧
    (∀ t : String, (skyEffect t).isSome = true → (phenomEffect t).isSome = true) ∧
    (∀ (s : String) (r : MetarResult), decode_metar s = some (.ok r) →
       r.weather_phenomena = (tokenize s.data).filterMap phenomEffect) ∧
    (decode_metar "METAR KJFK 161251Z 28008KT 10SM CLR 22/13 A3012 RMK AO2").map
        (fun o => match o with
          | .ok r => r.weather_phenomena
          | .err _ => []) =
      some [⟨"METAR", "METAR"⟩, ⟨"KJFK", "KJFK"⟩, ⟨"CLR", "CLR"⟩, ⟨"AO2", "AO2"⟩] := by
  refine ⟨fun t => ?_, fun t h => ?_, fun s r hr => ?_, by decide⟩
  · unfold phenomEffect
    cases hm : phenomMatchB t.data with
    | false => simp
    | true =>
      obtain ⟨hw, hl⟩ := phenom_exclusions t.data hm
      rw [hw, hl]
      by_cases he : t = "AUTO" ∨ t = "COR" ∨ t = "RMK"
      · have hb : (t == "AUTO" || t == "COR" || t == "RMK") = true := by
          rcases he with rfl | rfl | rfl <;> decide
        rw [hb]
        have hpf : ¬(true = true ∧ ¬(t = "AUTO" ∨ t = "COR" ∨ t = "RMK")) :=
          fun hP => hP.2 he
        rw [if_neg hpf]
        rfl
      · have hb : (t == "AUTO" || t == "COR" || t == "RMK") = false := by
          simp only [Bool.or_eq_false_iff, beq_eq_false_iff_ne, ne_eq]
          push_neg at he
          exact ⟨⟨he.1, he.2.1⟩, he.2.2⟩
        rw [hb]
        have hpf : true = true ∧ ¬(t = "AUTO" ∨ t = "COR" ∨ t = "RMK") := ⟨rfl, he⟩
        rw [if_pos hpf]
        rfl
  · unfold skyEffect at h
    by_cases hc : skyCodes.contains (String.mk (t.data.take 3)) = true
    · have hne : t ≠ "AUTO" ∧ t ≠ "COR" ∧ t ≠ "RMK" := by
        refine ⟨?_, ?_, ?_⟩ <;> rintro rfl <;> revert hc <;> decide
      simp only [skyCodes, List.contains_cons, List.contains_nil, Bool.or_false,
        Bool.or_eq_true, beq_iff_eq] at hc
      have hsplit : t.data = t.data.take 3 ++ t.data.drop 3 := (List.take_append_drop 3 t.data).symm
      rcases hc with h' | h' | h' | h' | h' | h' <;>
      · have h3 : t.data.take 3 = _ := congrArg String.data h'
        rw [h3] at hsplit
        exact phenomEffect_isSome_of_upper2 t _ _ _ hsplit (by decide) (by decide) hne
    · rw [if_neg hc] at h
      exact absurd h (by simp)
  · unfold decode_metar at hr
    by_cases hs : s = ""
    · rw [if_pos hs] at hr
      injection hr with hr'
      exact absurd hr' (by simp)
    · rw [if_neg hs] at hr
      cases hf : (tokenize s.data).foldlM applyToken initResult with
      | none => rw [hf] at hr; exact absurd hr (by simp)
      | some r0 =>
        rw [hf] at hr
        injection hr with hr'
        injection hr' with hr''
        have := foldlM_phenom (tokenize s.data) initResult r0 hf
        rw [← hr'']
        simpa [initResult] using this

/-- C10 witness: the accumulation applied to the concrete report "RA FG". -/
theorem claim_C10_witness :
    ({ wind := none, visibility := none, temperature := none, dewpoint := none,
       sky_conditions := [],
       weather_phenomena := [⟨"RA", "rain"⟩, ⟨"FG", "fog"⟩],
       pressure := none, time := none } : MetarResult).weather_phenomena
      = (tokenize "RA FG".data).filterMap phenomEffect :=
  claim_C10_phenomena_membership.2.2.1 "RA FG" _ (by decide)

end MetarReader
